import Mathlib

set_option autoImplicit false

/-!
Verification development for the webzfs replication engine.

The definitions below are shallow embeddings of the Python sources:
  * `src/services/zfs_snapshot.py`  — name validation (regex patterns
    `ZFS_DATASET_NAME_PATTERN`, `ZFS_SNAPSHOT_NAME_PATTERN`, and the
    validators `validate_dataset_name`, `validate_snapshot_name`,
    `validate_full_snapshot_name`);
  * `src/services/utils.py`         — `build_zfs_command`, `run_zfs_command`;
  * `src/services/zfs_replication.py` — `ZFSReplicationService`
    (job registry, `_check_target_exists`, `_get_snapshots`,
    `_get_remote_snapshots`, `_find_common_snapshot`,
    `_build_send_command`, `_build_receive_command`,
    `_execute_local_replication`, `_execute_remote_replication`,
    `execute_replication`).

Subprocess execution, wall-clock time and the two collaborators that are
not part of the source tree (`services/storage.py`,
`services/email_notification.py`) are modelled by explicit oracles /
state (see the `Env` and `St` structures).  Python exceptions are
modelled with `Except`; Python's regex `$` anchor is modelled
faithfully: it matches at the end of the string or just before one
trailing newline.
-/

namespace WebZFS

instance {ε α : Type} [DecidableEq ε] [DecidableEq α] :
    DecidableEq (Except ε α) := fun
  | .error a, .error b =>
    decidable_of_iff (a = b) (by simp)
  | .error _, .ok _ => isFalse (by simp)
  | .ok _, .error _ => isFalse (by simp)
  | .ok a, .ok b =>
    decidable_of_iff (a = b) (by simp)

/-! ## Character classes of the ZFS naming regexes

`[a-zA-Z0-9]` and `[a-zA-Z0-9_\-.:]` from
`ZFSSnapshotService.ZFS_DATASET_NAME_PATTERN` / `ZFS_SNAPSHOT_NAME_PATTERN`
(`src/services/zfs_snapshot.py`, lines 25-27). -/

def isAlnumChar (c : Char) : Bool :=
  ('a' ≤ c && c ≤ 'z') || ('A' ≤ c && c ≤ 'Z') || ('0' ≤ c && c ≤ '9')

def isNameChar (c : Char) : Bool :=
  isAlnumChar c || c == '_' || c == '-' || c == '.' || c == ':'

/-- Split a character list on a separator character; mirrors Python's
`str.split(sep)` (always returns at least one, possibly empty, field). -/
def splitChars (sep : Char) : List Char → List (List Char)
  | [] => [[]]
  | c :: rest =>
    if c = sep then [] :: splitChars sep rest
    else (c :: (splitChars sep rest).headD []) :: (splitChars sep rest).tail

/-- The body of the snapshot-name regex
`^[a-zA-Z0-9][a-zA-Z0-9_\-.:]*` consumed to the end of its input: one
leading alphanumeric character followed by name characters.  This is
the strict core; the Python `$` anchor's trailing-newline tolerance is
added in `matchSnapChars`. -/
def matchSnapCore : List Char → Bool
  | [] => false
  | c :: rest => isAlnumChar c && rest.all isNameChar

/-- `ZFS_SNAPSHOT_NAME_PATTERN.match` (`^[a-zA-Z0-9][a-zA-Z0-9_\-.:]*$`,
`src/services/zfs_snapshot.py` line 27): Python's `$` (no `MULTILINE`)
matches at the end of the string or just before one trailing newline,
so the name matches when either the whole input or the input minus one
final `'\n'` matches the core. -/
def matchSnapChars (cs : List Char) : Bool :=
  matchSnapCore cs ||
    (match cs.getLast? with
     | some c => c == '\n' && matchSnapCore cs.dropLast
     | none => false)

/-- The body of the dataset-name regex
`^[a-zA-Z0-9][a-zA-Z0-9_\-.:]*(/[a-zA-Z0-9][a-zA-Z0-9_\-.:]*)*`
consumed to the end of its input, embedded as a two-state matcher:
the Bool state is `true` when the matcher is at the start of a path
component (expects `[a-zA-Z0-9]`) and `false` when it is inside a
component (expects `[a-zA-Z0-9_\-.:]` or a `/` starting a new
component).  Acceptance at the end of input requires not being at a
component start (so neither `""` nor a trailing `/` is accepted).
This is the strict core; the Python `$` anchor's trailing-newline
tolerance is added in `matchDatasetChars`. -/
def datasetDFA : List Char → Bool → Bool
  | [], atStart => !atStart
  | c :: rest, true => isAlnumChar c && datasetDFA rest false
  | c :: rest, false =>
    if c = '/' then datasetDFA rest true
    else isNameChar c && datasetDFA rest false

/-- `ZFS_DATASET_NAME_PATTERN.match` (`src/services/zfs_snapshot.py`
line 25): the dataset regex with Python's `$` semantics — the whole
input, or the input minus one final `'\n'`, matches the core (the
regex body cannot consume `'\n'` itself, so these are the only two
positions `$` can certify). -/
def matchDatasetChars (cs : List Char) : Bool :=
  datasetDFA cs true ||
    (match cs.getLast? with
     | some c => c == '\n' && datasetDFA cs.dropLast true
     | none => false)

/-- `ZFSSnapshotService.validate_dataset_name`
(`src/services/zfs_snapshot.py`, lines 29-52): raises `ValueError`
(modelled as `Except.error` with the message) when the name is empty or
does not match `ZFS_DATASET_NAME_PATTERN` (which, via Python's `$`,
also accepts a name followed by one trailing newline). -/
def validate_dataset_name (dataset_name : String) : Except String Unit :=
  if dataset_name = "" then
    Except.error "Dataset name cannot be empty"
  else if !matchDatasetChars dataset_name.toList then
    Except.error ("Invalid dataset name " ++ dataset_name)
  else
    Except.ok ()

/-- `ZFSSnapshotService.validate_snapshot_name`
(`src/services/zfs_snapshot.py`, lines 54-77). -/
def validate_snapshot_name (snapshot_name : String) : Except String Unit :=
  if snapshot_name = "" then
    Except.error "Snapshot name cannot be empty"
  else if !matchSnapChars snapshot_name.toList then
    Except.error ("Invalid snapshot name " ++ snapshot_name)
  else
    Except.ok ()

/-- Python's `full_name.rsplit('@', 1)` restricted to the case used by
`validate_full_snapshot_name`: split at the LAST `'@'`; `none` when the
string holds no `'@'` (mirroring the `'@' not in full_name` guard). -/
def rsplitAtSign : List Char → Option (List Char × List Char)
  | [] => none
  | c :: rest =>
    match rsplitAtSign rest with
    | some (before, after) => some (c :: before, after)
    | none => if c = '@' then some ([], rest) else none

/-- `ZFSSnapshotService.validate_full_snapshot_name`
(`src/services/zfs_snapshot.py`, lines 79-97): requires an `'@'`,
splits on the last `'@'` and validates both halves. -/
def validate_full_snapshot_name (full_name : String) : Except String Unit :=
  match rsplitAtSign full_name.toList with
  | none => Except.error ("Invalid snapshot name format " ++ full_name)
  | some (dataset_part, snapshot_part) => do
    validate_dataset_name (String.mk dataset_part)
    validate_snapshot_name (String.mk snapshot_part)

/-- The dataset/snapshot halves produced by the `rsplit('@', 1)` in
`validate_full_snapshot_name`, as strings (for stating how the split
behaves). -/
def fullSnapshotParts (full_name : String) : Option (String × String) :=
  (rsplitAtSign full_name.toList).map
    (fun p => (String.mk p.1, String.mk p.2))

/-! ## `src/services/utils.py` -/

/-- `build_zfs_command` (`src/services/utils.py`, lines 155-172) with the
default `use_sudo=None`: prepends `sudo` exactly when
`needs_sudo_for_zfs()` holds, which is `is_linux()`; the platform probe
is carried as the Bool parameter. -/
def build_zfs_command (is_linux : Bool) (cmd : List String) : List String :=
  if is_linux then "sudo" :: cmd else cmd

/-- Outcome of one `subprocess.run`: `returncode`, decoded
`stdout`/`stderr`. -/
structure CompletedProcess where
  returncode : Int
  stdout : String
  stderr : String
deriving DecidableEq, Repr

/-- Python exceptions that flow through the replication service.
`calledProcessError` is `subprocess.CalledProcessError` (its `str(e)`
rendering and the captured stderr); `exception` is a plain
`Exception(msg)` raised by the service itself; `otherError` stands for
any other exception a subprocess call may raise (`TimeoutExpired`,
`FileNotFoundError`, ...). -/
inductive PyException where
  | calledProcessError (msg : String) (stderr : String)
  | exception (msg : String)
  | otherError (msg : String)
deriving DecidableEq, Repr

/-- `str(e)` of a `PyException`. -/
def PyException.message : PyException → String
  | .calledProcessError msg _ => msg
  | .exception msg => msg
  | .otherError msg => msg

/-- Exit codes and captured receiver output of one
sender-pipe-receiver execution (`Popen` pair + `communicate()`).
The sender's exit code is included so that theorems can quantify over
it; the source never reads it. -/
structure PipeOutcome where
  send_returncode : Int
  recv_returncode : Int
  recv_stdout : String
  recv_stderr : String
deriving DecidableEq, Repr

/-- Oracle for the effectful surface of the service: `run` models a
`subprocess.run` of the given argv WITHOUT `check` (an `Except.error`
is an exception raised by the call itself, e.g. a timeout); `pipe`
models a sender/receiver `Popen` pair keyed by the two argvs;
`is_linux` is the platform probe; `email_success_status` /
`email_failure_status` are the `status` fields returned by the
notification collaborator (`sent`, `skipped` or `failed`). -/
structure Env where
  run : List String → Except PyException CompletedProcess
  pipe : List String → List String → PipeOutcome
  is_linux : Bool
  email_success_status : String
  email_failure_status : String

/-- `run_zfs_command` (`src/services/utils.py`, lines 195-236): builds
the (possibly sudo-prefixed) argv and runs it; with `check = true` a
non-zero exit raises `CalledProcessError`. -/
def run_zfs_command (env : Env) (cmd : List String) (check : Bool) :
    Except PyException CompletedProcess :=
  match env.run (build_zfs_command env.is_linux cmd) with
  | .ok p =>
    if check && p.returncode != 0 then
      .error (.calledProcessError
        ("Command returned non-zero exit status " ++ toString p.returncode ++ ".")
        p.stderr)
    else .ok p
  | .error e => .error e

/-! ## `src/services/zfs_replication.py` : data model -/

/-- `ReplicationType` enum (lines 17-21). -/
inductive ReplicationType where
  | PUSH
  | PULL
  | LOCAL
deriving DecidableEq, Repr

def ReplicationType.value : ReplicationType → String
  | .PUSH => "push"
  | .PULL => "pull"
  | .LOCAL => "local"

/-- `CompressionMethod` enum (lines 24-29). -/
inductive CompressionMethod where
  | NONE
  | LZ4
  | GZIP
  | ZSTD
deriving DecidableEq, Repr

/-- The `**options` keyword bag, restricted to the keys the replication
paths read (`remote_host`, `remote_port`, `ssh_key`, `force`);
`none` models an absent key. -/
structure Options where
  remote_host : Option String := none
  remote_port : Option Nat := none
  ssh_key : Option String := none
  force : Option Bool := none
deriving DecidableEq, Repr

/-- Observable side effects of one `execute_replication` call, in
program order: collaborator calls on the execution record store, the
process spawns of the pipe executors, the half-close of the sender's
stdout pipe and the blocking wait on the receiver. -/
inductive Event where
  | createRecord (id : Nat)
  | updateRecord (id : Nat) (status : String)
  | spawnSender (cmd : List String)
  | spawnReceiver (cmd : List String)
  | closeSenderStdout
  | waitReceiver
  | logNotification (id : Nat) (ntype : String) (status : String)
deriving DecidableEq, Repr

/-- One execution record of the persistence collaborator.
Wall-clock fields (`started_at`, `completed_at`, `duration_seconds`)
and byte counters are not modelled. -/
structure ExecutionRecord where
  id : Nat
  job_id : Option String
  job_name : String
  source_dataset : String
  target_dataset : String
  replication_type : String
  status : String
  error_message : Option String
  log_output : String
deriving DecidableEq, Repr

/-- State of the persistence collaborator plus the event trace of the
current call sequence. -/
structure St where
  records : List ExecutionRecord
  events : List Event
  next_id : Nat
deriving DecidableEq, Repr

/-- Modelled from the spec: `FileStorageService.create_execution_record`
(`services/storage.py` is not under `src/`).  Per §4.6/§6 of the spec it
creates one Execution Record for the attempt in a non-terminal state
(`pending`/`running`) and returns a fresh execution id. -/
def St.create_execution_record (st : St) (job_id : Option String)
    (job_name source target rt_value : String) : Nat × St :=
  (st.next_id,
   { records := st.records ++
       [{ id := st.next_id, job_id := job_id, job_name := job_name,
          source_dataset := source, target_dataset := target,
          replication_type := rt_value, status := "running",
          error_message := none, log_output := "" }],
     events := st.events ++ [Event.createRecord st.next_id],
     next_id := st.next_id + 1 })

/-- Modelled from the spec: `FileStorageService.update_execution_record`
(`services/storage.py` is not under `src/`).  Per §4.6/§6 it sets the
given fields on the record with the given id; it does not raise. -/
def St.update_execution_record (st : St) (id : Nat) (status : String)
    (error_message : Option String) (log_output : String) : St :=
  { st with
    records := st.records.map (fun r =>
      if r.id = id then
        { r with status := status, error_message := error_message,
                 log_output := log_output }
      else r),
    events := st.events ++ [Event.updateRecord id status] }

/-- Modelled from the spec: `FileStorageService.log_notification`
(`services/storage.py` is not under `src/`); records a
notification-log entry, never raises. -/
def St.log_notification (st : St) (id : Nat) (ntype status : String) : St :=
  { st with events := st.events ++ [Event.logNotification id ntype status] }

/-! ## `src/services/zfs_replication.py` : operations -/

/-- Python whitespace as used by `str.strip()` (the characters that
occur in practice in command output). -/
def isSpaceChar (c : Char) : Bool :=
  c == ' ' || c == '\t' || c == '\n' || c == '\r'

/-- `line.strip()`. -/
def stripChars (l : List Char) : List Char :=
  ((l.dropWhile isSpaceChar).reverse.dropWhile isSpaceChar).reverse

/-- `[line.strip() for line in out.split('\n') if line.strip()]` — the
stdout parsing shared by `_get_snapshots` (line 560) and
`_get_remote_snapshots` (line 666). -/
def parse_snapshot_lines (out : String) : List String :=
  ((splitChars '\n' out.toList).map (fun l => String.mk (stripChars l))).filter
    (fun l => l ≠ "")

/-- `'@' in s`. -/
def containsAt (s : String) : Bool :=
  s.toList.contains '@'

/-- `s.split('@')[i]` (total: defaults to `""`, never used at an
out-of-range index by the source paths modelled here). -/
def splitAtSignField (s : String) (i : Nat) : String :=
  String.mk ((splitChars '@' s.toList).getD i [])

/-- `ZFSReplicationService._check_target_exists` (lines 169-183):
probes `zfs list -H <target>` with `check=True`; `CalledProcessError`
means the target does not exist; any other exception propagates. -/
def check_target_exists (env : Env) (target : String) :
    Except PyException Bool :=
  match run_zfs_command env ["zfs", "list", "-H", target] true with
  | .ok _ => .ok true
  | .error (.calledProcessError _ _) => .ok false
  | .error e => .error e

/-- The local snapshot-listing argv of `_get_snapshots` (line 558). -/
def snapshot_list_cmd (dataset : String) : List String :=
  ["zfs", "list", "-t", "snapshot", "-H", "-o", "name", "-r", dataset]

/-- `ZFSReplicationService._get_snapshots` (lines 554-562): lists
snapshots with `check=True`; on `CalledProcessError` it returns `[]`;
other exceptions propagate. -/
def get_snapshots (env : Env) (dataset : String) :
    Except PyException (List String) :=
  match run_zfs_command env (snapshot_list_cmd dataset) true with
  | .ok p => .ok (parse_snapshot_lines p.stdout)
  | .error (.calledProcessError _ _) => .ok []
  | .error e => .error e

/-- The ssh argv built by `_get_remote_snapshots` (lines 645-655):
port, optional key, the four `-o` options, host, then the remote
listing command. -/
def remote_snapshot_list_cmd (remote_host : String) (remote_port : Nat)
    (ssh_key : Option String) (dataset : String) : List String :=
  ["ssh", "-p", toString remote_port] ++
  (match ssh_key with
   | some k => if k = "" then [] else ["-i", k]
   | none => []) ++
  ["-o", "StrictHostKeyChecking=no",
   "-o", "UserKnownHostsFile=/dev/null",
   "-o", "BatchMode=yes",
   "-o", "ConnectTimeout=10",
   remote_host] ++
  snapshot_list_cmd dataset

/-- `ZFSReplicationService._get_remote_snapshots` (lines 626-670):
missing (or falsy) `remote_host` gives `[]`; the ssh listing runs with
`check=False`; a non-zero exit gives `[]`; ANY exception gives `[]`. -/
def get_remote_snapshots (env : Env) (dataset : String)
    (options : Options) : List String :=
  match options.remote_host with
  | none => []
  | some host =>
    if host = "" then []
    else
      match env.run (remote_snapshot_list_cmd host
          (options.remote_port.getD 22) options.ssh_key dataset) with
      | .ok p =>
        if p.returncode == 0 then parse_snapshot_lines p.stdout else []
      | .error _ => []

/-- `snap.split('@')[1]` for each inventory entry containing `'@'` —
the "bare snapshot name" sets of `_find_common_snapshot`
(lines 588-591 and 605-608). -/
def bare_snap_names (snapshots : List String) : List String :=
  (snapshots.filter (fun s => containsAt s)).map
    (fun s => splitAtSignField s 1)

/-- The pure core of `ZFSReplicationService._find_common_snapshot`
(lines 588-624), over already-fetched source and target inventories:
build the two bare-name sets, intersect, then scan the source inventory
in reverse and return the first (i.e. most recent) full entry whose
bare name is common.  Set membership is modelled by list membership. -/
def find_common_snapshot_core (source_snapshots target_snapshots : List String) :
    Option String :=
  let source_snap_names := bare_snap_names source_snapshots
  if source_snap_names.isEmpty then none
  else
    let target_snap_names := bare_snap_names target_snapshots
    let common_snaps := source_snap_names.filter
      (fun n => target_snap_names.contains n)
    if common_snaps.isEmpty then none
    else
      source_snapshots.reverse.find? (fun snap =>
        containsAt snap && common_snaps.contains (splitAtSignField snap 1))

/-- `ZFSReplicationService._find_common_snapshot` (lines 564-624)
including its inventory fetches: strip the `@snapshot` part from
`source`, list source snapshots locally, list target snapshots locally
(LOCAL) or remotely (PUSH/PULL), and resolve on the inventories. -/
def find_common_snapshot (env : Env) (source target : String)
    (replication_type : ReplicationType) (options : Options) :
    Except PyException (Option String) :=
  let source_dataset :=
    if containsAt source then splitAtSignField source 0 else source
  match get_snapshots env source_dataset with
  | .error e => .error e
  | .ok source_snapshots =>
    if (bare_snap_names source_snapshots).isEmpty then .ok none
    else
      match (if replication_type = ReplicationType.LOCAL then
               get_snapshots env target
             else
               .ok (get_remote_snapshots env target options)) with
      | .error e => .error e
      | .ok target_snapshots =>
        .ok (find_common_snapshot_core source_snapshots target_snapshots)

/-- `ZFSReplicationService._build_send_command` (lines 672-704).
The `dataset` argument is unused by the source body; it is kept for
signature fidelity. -/
def build_send_command (dataset snapshot : String) (incremental recursive : Bool)
    (compression : CompressionMethod) (base_snapshot : Option String) :
    List String :=
  ["zfs", "send"] ++
  (if recursive then ["-R"] else []) ++
  (if compression != CompressionMethod.NONE then ["-c", "-w"] else []) ++
  (match base_snapshot with
   | some base => if incremental then ["-i", base] else []
   | none => []) ++
  [snapshot]

/-- `ZFSReplicationService._build_receive_command` (lines 706-718):
`-F` exactly when `options.get('force', False)` is truthy. -/
def build_receive_command (target : String)
    (replication_type : ReplicationType) (options : Options) : List String :=
  ["zfs", "receive"] ++
  (if options.force.getD false then ["-F"] else []) ++
  [target]

/-- Result dictionary of the two pipe executors. -/
structure RunResult where
  bytes : Nat
  speed : String
  log_output : String
deriving DecidableEq, Repr

/-- `ZFSReplicationService._execute_local_replication` (lines 720-749):
spawn sender, spawn receiver on the pipe, close the orchestrator's
handle to the sender's stdout, wait for the receiver
(`communicate()`), and raise when the receiver exited non-zero.  The
first component is the trace of effects in program order. -/
def execute_local_replication (env : Env) (send_cmd receive_cmd : List String) :
    List Event × Except PyException RunResult :=
  let full_send_cmd := build_zfs_command env.is_linux send_cmd
  let full_receive_cmd := build_zfs_command env.is_linux receive_cmd
  let o := env.pipe full_send_cmd full_receive_cmd
  let trace := [Event.spawnSender full_send_cmd,
                Event.spawnReceiver full_receive_cmd,
                Event.closeSenderStdout,
                Event.waitReceiver]
  if o.recv_returncode != 0 then
    (trace, .error (.exception ("Receive failed: " ++ o.recv_stderr)))
  else
    (trace, .ok { bytes := 0, speed := "N/A", log_output := o.recv_stderr })

/-- `ZFSReplicationService._execute_remote_replication` (lines 751-796):
missing/falsy `remote_host` raises before anything is spawned; the
receiver argv is carried by a plain
`ssh -p <port> [-i <key>] <host> <receive argv...>` invocation; the
sender is spawned locally, the ssh client on the pipe, the sender's
stdout handle is closed, and the ssh client is waited on. -/
def execute_remote_replication (env : Env) (send_cmd receive_cmd : List String)
    (options : Options) : List Event × Except PyException RunResult :=
  match options.remote_host with
  | none => ([], .error (.exception "remote_host required for remote replication"))
  | some host =>
    if host = "" then
      ([], .error (.exception "remote_host required for remote replication"))
    else
      let full_send_cmd := build_zfs_command env.is_linux send_cmd
      let ssh_cmd := ["ssh", "-p", toString (options.remote_port.getD 22)] ++
        (match options.ssh_key with
         | some k => if k = "" then [] else ["-i", k]
         | none => []) ++
        [host] ++ receive_cmd
      let o := env.pipe full_send_cmd ssh_cmd
      let trace := [Event.spawnSender full_send_cmd,
                    Event.spawnReceiver ssh_cmd,
                    Event.closeSenderStdout,
                    Event.waitReceiver]
      if o.recv_returncode != 0 then
        (trace, .error (.exception ("Remote receive failed: " ++ o.recv_stderr)))
      else
        (trace, .ok { bytes := 0, speed := "N/A", log_output := o.recv_stderr })

/-- The executor dispatch of `execute_replication` (lines 269-275):
LOCAL runs the local pipe executor, PUSH/PULL the remote one. -/
def run_executor (env : Env) (replication_type : ReplicationType)
    (send_cmd receive_cmd : List String) (options : Options) :
    List Event × Except PyException RunResult :=
  if replication_type = ReplicationType.LOCAL then
    execute_local_replication env send_cmd receive_cmd
  else
    execute_remote_replication env send_cmd receive_cmd options

/-- The body of the `try` block of
`ZFSReplicationService.execute_replication` (lines 228-275): resolve
the snapshot to send, auto-detect `force` when it was not supplied,
resolve the incremental base (falling back to a full send when there is
none), build both argvs and run the matching pipe executor.  Returns
the pipe-executor trace together with either the raised exception or
`(latest_snapshot, run result)`.  Every raise happens before the
success-side storage updates, which are performed by the caller. -/
def replication_attempt (env : Env) (source target : String)
    (replication_type : ReplicationType) (incremental recursive : Bool)
    (compression : CompressionMethod) (force : Option Bool)
    (options : Options) :
    List Event × Except PyException (String × RunResult) :=
  -- lines 229-240: determine the snapshot to send
  match ((if containsAt source then .ok source
          else match get_snapshots env source with
               | .error e => .error e
               | .ok snapshots =>
                 if snapshots.isEmpty then
                   .error (PyException.exception
                     ("No snapshots found for " ++ source))
                 else .ok (snapshots.getLastD "")) :
         Except PyException String) with
  | .error e => ([], .error e)
  | .ok latest_snapshot =>
    -- lines 242-244: force auto-detection
    match ((match force with
            | none => check_target_exists env target
            | some b => .ok b) : Except PyException Bool) with
    | .error e => ([], .error e)
    | .ok force_val =>
      -- lines 246-256: merge force into the options
      -- (`options_with_force`), then resolve the incremental base with
      -- the full-send fallback (`incremental` is and-ed with the base's
      -- presence); the Python locals are inlined here
      match ((if incremental then
                find_common_snapshot env source target replication_type
                  { options with force := some force_val }
              else .ok none) : Except PyException (Option String)) with
      | .error e => ([], .error e)
      | .ok base_snapshot =>
        -- lines 258-275: build both commands and run the matching
        -- executor
        ((run_executor env replication_type
            (build_send_command source latest_snapshot
              (incremental && base_snapshot.isSome) recursive
              compression base_snapshot)
            (build_receive_command target replication_type
              { options with force := some force_val })
            { options with force := some force_val }).1,
         (run_executor env replication_type
            (build_send_command source latest_snapshot
              (incremental && base_snapshot.isSome) recursive
              compression base_snapshot)
            (build_receive_command target replication_type
              { options with force := some force_val })
            { options with force := some force_val }).2.map
           (fun r => (latest_snapshot, r)))

/-- The result dictionary returned by `execute_replication`
(lines 312-323 on success, 372-381 on failure).  Wall-clock fields are
not modelled. -/
structure ReplicationResult where
  status : String
  source : String
  target : String
  snapshot : Option String
  bytes_transferred : Option Nat
  error : Option String
  execution_id : Nat
deriving DecidableEq, Repr

/-- `ZFSReplicationService.execute_replication` (lines 185-381):
create the execution record, run the attempt, and on either outcome
update the record to a terminal status exactly once, fire the matching
notification (logging it per the collaborator's returned status) and
return a result dictionary rather than raising. -/
def execute_replication (env : Env) (st : St) (source target : String)
    (replication_type : ReplicationType) (incremental recursive : Bool)
    (compression : CompressionMethod) (job_id job_name : Option String)
    (force : Option Bool) (options : Options) : ReplicationResult × St :=
  let display_name := job_name.getD (source ++ " → " ++ target)
  let (execution_id, st1) := st.create_execution_record job_id display_name
    source target replication_type.value
  match replication_attempt env source target replication_type incremental
      recursive compression force options with
  | (trace, .ok (latest_snapshot, result)) =>
    let st2 := { st1 with events := st1.events ++ trace }
    -- lines 281-289: terminal success update
    let st3 := st2.update_execution_record execution_id "success" none
      result.log_output
    -- lines 292-310: success notification and its log entry
    let st4 := if env.email_success_status = "sent" then
        st3.log_notification execution_id "success" "sent"
      else st3
    ({ status := "success", source := source, target := target,
       snapshot := some latest_snapshot,
       bytes_transferred := some result.bytes, error := none,
       execution_id := execution_id }, st4)
  | (trace, .error e) =>
    let st2 := { st1 with events := st1.events ++ trace }
    let error_message := e.message
    -- lines 332-339: terminal failure update
    let st3 := st2.update_execution_record execution_id "failure"
      (some error_message) error_message
    -- lines 342-370: failure notification and its log entry
    let st4 := if env.email_failure_status = "sent" then
        st3.log_notification execution_id "failure" "sent"
      else if env.email_failure_status = "failed" then
        st3.log_notification execution_id "failure" "failed"
      else st3
    ({ status := "failure", source := source, target := target,
       snapshot := none, bytes_transferred := none,
       error := some error_message, execution_id := execution_id }, st4)

/-! ## Job registry (`ZFSReplicationService._jobs`) -/

/-- One entry of the in-memory job registry; only the fields the
registry operations touch are modelled (the rest of the configuration
dictionary is inert under lookup/update/delete). -/
structure Job where
  name : String
  enabled : Bool
  updated_at : Nat
deriving DecidableEq, Repr

/-- The in-memory `self._jobs` dictionary, as an association list keyed
by job id. -/
def JobRegistry := List (String × Job)

/-- `job_id in self._jobs`. -/
def JobRegistry.hasKey (jobs : JobRegistry) (job_id : String) : Bool :=
  jobs.any (fun p => p.1 == job_id)

/-- `KeyError(f"Replication job {job_id} not found")`. -/
inductive RegistryError where
  | keyError (msg : String)
deriving DecidableEq, Repr

/-- `ZFSReplicationService.get_replication_job` (lines 55-70). -/
def get_replication_job (jobs : JobRegistry) (job_id : String) :
    Except RegistryError Job :=
  if jobs.hasKey job_id then
    match jobs.find? (fun p => p.1 == job_id) with
    | some p => .ok p.2
    | none => .error (.keyError ("Replication job " ++ job_id ++ " not found"))
  else
    .error (.keyError ("Replication job " ++ job_id ++ " not found"))

/-- `ZFSReplicationService.update_replication_job` (lines 130-148):
raises `KeyError` (leaving the registry untouched) when the id is
unknown, else applies the update dictionary (modelled as a function on
the stored job) and stamps `updated_at`.  The first component is the
raised error, if any; the second is the registry afterwards. -/
def update_replication_job (jobs : JobRegistry) (job_id : String)
    (updates : Job → Job) (now : Nat) :
    Option RegistryError × JobRegistry :=
  if jobs.hasKey job_id then
    (none, jobs.map (fun p =>
      if p.1 == job_id then (p.1, { updates p.2 with updated_at := now })
      else p))
  else
    (some (.keyError ("Replication job " ++ job_id ++ " not found")), jobs)

/-- `ZFSReplicationService.delete_replication_job` (lines 150-159). -/
def delete_replication_job (jobs : JobRegistry) (job_id : String) :
    Option RegistryError × JobRegistry :=
  if jobs.hasKey job_id then
    (none, jobs.filter (fun p => !(p.1 == job_id)))
  else
    (some (.keyError ("Replication job " ++ job_id ++ " not found")), jobs)

/-- `ZFSReplicationService.enable_job` (lines 161-163). -/
def enable_job (jobs : JobRegistry) (job_id : String) (now : Nat) :
    Option RegistryError × JobRegistry :=
  update_replication_job jobs job_id (fun j => { j with enabled := true }) now

/-- `ZFSReplicationService.disable_job` (lines 165-167). -/
def disable_job (jobs : JobRegistry) (job_id : String) (now : Nat) :
    Option RegistryError × JobRegistry :=
  update_replication_job jobs job_id (fun j => { j with enabled := false }) now

/-- A benign environment for concrete witness runs: every subprocess
succeeds with empty output, both pipe processes exit 0, non-Linux
platform (no sudo prefix), notifications skipped. -/
def okEnv : Env :=
  { run := fun _ => .ok { returncode := 0, stdout := "", stderr := "" },
    pipe := fun _ _ =>
      { send_returncode := 0, recv_returncode := 0,
        recv_stdout := "", recv_stderr := "" },
    is_linux := false,
    email_success_status := "skipped",
    email_failure_status := "skipped" }

/-- The empty collaborator state. -/
def emptySt : St :=
  { records := [], events := [], next_id := 0 }

/-! ## Auxiliary specification-side definitions -/

/-- Some spawn of the receiving process, the close of the
orchestrator's handle to the sender's stdout pipe write end, and the
blocking wait on the receiver occur in the trace, in that order. -/
def half_close_before_wait (trace : List Event) : Prop :=
  ∃ i j k : Nat, i < j ∧ j < k ∧
    (∃ cmd, trace.get? i = some (Event.spawnReceiver cmd)) ∧
    trace.get? j = some Event.closeSenderStdout ∧
    trace.get? k = some Event.waitReceiver

/-- An environment whose every subprocess exits 1 with a
"dataset does not exist" diagnostic. -/
def failListEnv : Env :=
  { okEnv with
    run := fun _ => .ok
      { returncode := 1, stdout := "",
        stderr := "cannot open nosuch/data: dataset does not exist" } }

/-- An environment whose receiver-side pipe process exits 1 with the
stderr diagnostic of an existing target dataset; the sender exits 0. -/
def recvFailEnv : Env :=
  { okEnv with
    pipe := fun _ _ =>
      { send_returncode := 0, recv_returncode := 1,
        recv_stdout := "",
        recv_stderr := "dataset already exists, use -F" } }

/-- An environment whose local listing of `tank/a` yields the single
snapshot `tank/a@s5` and whose listing of any other dataset yields
nothing; all commands succeed. -/
def c5Env : Env :=
  { okEnv with
    run := fun cmd =>
      if cmd = snapshot_list_cmd "tank/a" then
        .ok { returncode := 0, stdout := "tank/a@s5\n", stderr := "" }
      else
        .ok { returncode := 0, stdout := "", stderr := "" } }

/-- Events that are terminal-status updates of the record with the
given execution id. -/
def isTerminalUpdateFor (id : Nat) : Event → Bool
  | Event.updateRecord i s => i == id && (s == "success" || s == "failure")
  | _ => false

/-- Events that are `update_execution_record` calls (of any status). -/
def isUpdateEvent : Event → Bool
  | Event.updateRecord _ _ => true
  | _ => false

/-! ## General helper lemmas -/

theorem find?_congr_of_mem {α : Type} {l : List α} {p q : α → Bool}
    (h : ∀ a ∈ l, p a = q a) : l.find? p = l.find? q := by
  induction l with
  | nil => rfl
  | cons a t ih =>
    have ha := h a (by simp)
    cases hq : q a with
    | true => simp [List.find?_cons, ha, hq]
    | false =>
      simp only [List.find?_cons, ha, hq]
      exact ih (fun x hx => h x (by simp [hx]))

theorem mem_bare_snap_names {snap : String} {l : List String}
    (hmem : snap ∈ l) (hc : containsAt snap = true) :
    splitAtSignField snap 1 ∈ bare_snap_names l := by
  unfold bare_snap_names
  exact List.mem_map_of_mem _ (List.mem_filter.mpr ⟨hmem, hc⟩)

/-! ## Orchestration helper lemmas -/

theorem local_replication_trace_eq (env : Env) (send_cmd receive_cmd : List String) :
    (execute_local_replication env send_cmd receive_cmd).1 =
      [Event.spawnSender (build_zfs_command env.is_linux send_cmd),
       Event.spawnReceiver (build_zfs_command env.is_linux receive_cmd),
       Event.closeSenderStdout,
       Event.waitReceiver] := by
  simp only [execute_local_replication]
  split <;> rfl

theorem remote_replication_trace_eq (env : Env) (send_cmd receive_cmd : List String)
    (options : Options) (host : String)
    (hhost : options.remote_host = some host) (hne : host ≠ "") :
    (execute_remote_replication env send_cmd receive_cmd options).1 =
      [Event.spawnSender (build_zfs_command env.is_linux send_cmd),
       Event.spawnReceiver
         (["ssh", "-p", toString (options.remote_port.getD 22)] ++
          (match options.ssh_key with
           | some k => if k = "" then [] else ["-i", k]
           | none => []) ++
          [host] ++ receive_cmd),
       Event.closeSenderStdout,
       Event.waitReceiver] := by
  simp only [execute_remote_replication, hhost]
  rw [if_neg hne]
  split <;> rfl

/-- After appending a fresh `running` record and then updating the
record with that id, looking the id up yields exactly the created
record with the updated fields. -/
theorem find_updated_records (records : List ExecutionRecord) (nid : Nat)
    (jid : Option String) (jn src tgt rtv status : String)
    (err : Option String) (log : String)
    (hfresh : ∀ r ∈ records, r.id ≠ nid) :
    ((records ++
       [({ id := nid, job_id := jid, job_name := jn, source_dataset := src,
           target_dataset := tgt, replication_type := rtv,
           status := "running", error_message := none,
           log_output := "" } : ExecutionRecord)]).map
      (fun (r : ExecutionRecord) => if r.id = nid then
          { r with status := status, error_message := err, log_output := log }
        else r)).find? (fun (r : ExecutionRecord) => r.id == nid) =
      some { id := nid, job_id := jid, job_name := jn, source_dataset := src,
             target_dataset := tgt, replication_type := rtv, status := status,
             error_message := err, log_output := log } := by
  rw [List.map_append, List.find?_append]
  have h1 : (records.map (fun (r : ExecutionRecord) =>
      if r.id = nid then
        { r with status := status, error_message := err, log_output := log }
      else r)).find? (fun (r : ExecutionRecord) => r.id == nid) = none := by
    rw [List.find?_eq_none]
    intro x hx
    rw [List.mem_map] at hx
    obtain ⟨r, hr, rfl⟩ := hx
    rw [if_neg (hfresh r hr)]
    simp [hfresh r hr]
  rw [h1]
  simp

/-- `run_executor` at `LOCAL` is the local pipe executor. -/
theorem run_executor_local (env : Env) (s r : List String) (opts : Options) :
    run_executor env ReplicationType.LOCAL s r opts =
      execute_local_replication env s r := by
  unfold run_executor
  rw [if_pos rfl]

/-- Local pipe execution raises `Receive failed: <stderr>` exactly when
the receiver exits non-zero. -/
theorem local_executor_error (env : Env) (s r : List String)
    (h : (env.pipe (build_zfs_command env.is_linux s)
      (build_zfs_command env.is_linux r)).recv_returncode ≠ 0) :
    (execute_local_replication env s r).2 =
      .error (.exception ("Receive failed: " ++
        (env.pipe (build_zfs_command env.is_linux s)
          (build_zfs_command env.is_linux r)).recv_stderr)) := by
  simp only [execute_local_replication]
  rw [if_pos (bne_iff_ne.mpr h)]

/-- Local pipe execution succeeds exactly when the receiver exits zero,
whatever the sender's exit code was. -/
theorem local_executor_ok (env : Env) (s r : List String)
    (h : (env.pipe (build_zfs_command env.is_linux s)
      (build_zfs_command env.is_linux r)).recv_returncode = 0) :
    (execute_local_replication env s r).2 =
      .ok { bytes := 0, speed := "N/A",
            log_output := (env.pipe (build_zfs_command env.is_linux s)
              (build_zfs_command env.is_linux r)).recv_stderr } := by
  simp only [execute_local_replication]
  rw [if_neg (by simp [h])]

/-- The trace returned by the local executor holds no
`update_execution_record` call. -/
theorem local_trace_no_updates (env : Env) (s r : List String) :
    ∀ e ∈ (execute_local_replication env s r).1, isUpdateEvent e = false := by
  rw [local_replication_trace_eq]
  intro e he
  simp only [List.mem_cons, List.not_mem_nil, or_false] at he
  rcases he with rfl | rfl | rfl | rfl <;> rfl

/-- The trace returned by the remote executor holds no
`update_execution_record` call. -/
theorem remote_trace_no_updates (env : Env) (s r : List String) (opts : Options) :
    ∀ e ∈ (execute_remote_replication env s r opts).1, isUpdateEvent e = false := by
  cases hh : opts.remote_host with
  | none =>
    unfold execute_remote_replication
    rw [hh]
    simp
  | some host =>
    by_cases hhe : host = ""
    · unfold execute_remote_replication
      rw [hh]
      subst hhe
      simp
    · rw [remote_replication_trace_eq env s r opts host hh hhe]
      intro e he
      simp only [List.mem_cons, List.not_mem_nil, or_false] at he
      rcases he with rfl | rfl | rfl | rfl <;> rfl

/-- The trace returned by the executor dispatch holds no
`update_execution_record` call. -/
theorem executor_trace_no_updates (env : Env) (rt : ReplicationType)
    (s r : List String) (opts : Options) :
    ∀ e ∈ (run_executor env rt s r opts).1, isUpdateEvent e = false := by
  unfold run_executor
  split
  · exact local_trace_no_updates env s r
  · exact remote_trace_no_updates env s r opts

/-- The trace returned by `replication_attempt` holds no
`update_execution_record` call (all storage updates are performed by
`execute_replication` itself). -/
theorem attempt_trace_no_updates (env : Env) (source target : String)
    (rt : ReplicationType) (incr rec : Bool) (comp : CompressionMethod)
    (force : Option Bool) (opts : Options) :
    ∀ e ∈ (replication_attempt env source target rt incr rec comp force opts).1,
      isUpdateEvent e = false := by
  unfold replication_attempt
  split
  next e0 hlat => simp
  next latest hlat =>
    split
    next e1 hfv => simp
    next fv hfv =>
      split
      next e2 hbase => simp
      next base hbase =>
        intro e he
        dsimp only at he
        exact executor_trace_no_updates _ _ _ _ _ e he

/-- Reduction of `replication_attempt` given the resolved snapshot, the
resolved force flag and the resolved incremental base. -/
theorem replication_attempt_reduce (env : Env) (source target : String)
    (rt : ReplicationType) (incr rec : Bool) (comp : CompressionMethod)
    (force : Option Bool) (opts : Options) (latest : String) (ex : Bool)
    (base : Option String)
    (hlatest : ((if containsAt source then Except.ok source
                 else match get_snapshots env source with
                      | .error e => .error e
                      | .ok snapshots =>
                        if snapshots.isEmpty then
                          .error (PyException.exception
                            ("No snapshots found for " ++ source))
                        else .ok (snapshots.getLastD "")) :
                Except PyException String) = .ok latest)
    (hforce : ((match force with
                | none => check_target_exists env target
                | some b => .ok b) : Except PyException Bool) = .ok ex)
    (hbase : ((if incr then
                 find_common_snapshot env source target rt
                   { opts with force := some ex }
               else .ok none) : Except PyException (Option String)) = .ok base) :
    replication_attempt env source target rt incr rec comp force opts =
      ((run_executor env rt
          (build_send_command source latest (incr && base.isSome) rec comp base)
          (build_receive_command target rt { opts with force := some ex })
          { opts with force := some ex }).1,
       (run_executor env rt
          (build_send_command source latest (incr && base.isSome) rec comp base)
          (build_receive_command target rt { opts with force := some ex })
          { opts with force := some ex }).2.map (fun r => (latest, r))) := by
  unfold replication_attempt
  rw [hlatest]
  dsimp only
  rw [hforce]
  dsimp only
  rw [hbase]

/-- Every event of the attempt's pipe trace appears in the event trace
of the surrounding `execute_replication` call. -/
theorem attempt_trace_in_events (env : Env) (st : St) (source target : String)
    (rt : ReplicationType) (incr rec : Bool) (comp : CompressionMethod)
    (jid jname : Option String) (force : Option Bool) (opts : Options) :
    ∀ e ∈ (replication_attempt env source target rt incr rec comp force opts).1,
      e ∈ (execute_replication env st source target rt incr rec comp jid jname
        force opts).2.events := by
  intro e he
  unfold execute_replication
  rcases hatt : replication_attempt env source target rt incr rec comp
    force opts with ⟨trace, res⟩
  rw [hatt] at he
  cases res with
  | ok val =>
    rcases val with ⟨latest, r⟩
    dsimp only
    split
    all_goals
      simp [St.update_execution_record, St.log_notification,
        St.create_execution_record, he]
  | error e0 =>
    dsimp only
    split
    · simp [St.update_execution_record, St.log_notification,
        St.create_execution_record, he]
    · split
      all_goals
        simp [St.update_execution_record, St.log_notification,
          St.create_execution_record, he]

/-- The resolver core yields no base when the two bare-name sets do not
intersect. -/
theorem find_common_core_none_of_empty_inter (src tgt : List String)
    (h : ∀ n ∈ bare_snap_names src, n ∉ bare_snap_names tgt) :
    find_common_snapshot_core src tgt = none := by
  simp only [find_common_snapshot_core]
  by_cases h1 : (bare_snap_names src).isEmpty = true
  · rw [if_pos h1]
  · rw [if_neg h1]
    have hfil : (bare_snap_names src).filter
        (fun n => (bare_snap_names tgt).contains n) = [] := by
      rw [List.filter_eq_nil_iff]
      intro a ha hc
      exact h a ha (List.elem_iff.mp hc)
    rw [hfil]
    rfl

/-- `_find_common_snapshot` over a LOCAL pair reduces to the pure core
on the two fetched inventories. -/
theorem find_common_snapshot_local_eq (env : Env) (source target : String)
    (opts : Options) (src_inv tgt_inv : List String)
    (hsrc : containsAt source = false)
    (hsnaps : get_snapshots env source = .ok src_inv)
    (htgt : get_snapshots env target = .ok tgt_inv) :
    find_common_snapshot env source target ReplicationType.LOCAL opts =
      .ok (find_common_snapshot_core src_inv tgt_inv) := by
  unfold find_common_snapshot
  rw [hsrc]
  simp only [Bool.false_eq_true, if_false, hsnaps]
  by_cases h1 : (bare_snap_names src_inv).isEmpty = true
  · rw [if_pos h1]
    simp only [find_common_snapshot_core]
    rw [if_pos h1]
  · rw [if_neg h1]
    simp only [if_true, htgt]

/-! ## Claim C1 : incremental-base resolution result -/

/-- C1 counterexample: on source inventory `[d@s1, d@s2, d@s3]` and
target inventory `[t@s1, t@s2]`, `_find_common_snapshot` returns the
FULL source entry `d@s2`, with its dataset prefix — not the bare
snapshot name `s2` the claim states. -/
theorem C1_counterexample :
    find_common_snapshot_core ["d@s1", "d@s2", "d@s3"] ["t@s1", "t@s2"] =
      some "d@s2" ∧
    (some "d@s2" : Option String) ≠ some "s2" := by
  constructor
  · decide
  · decide

/-- C1 (amended): when incremental-base resolution succeeds it returns
the last entry of the source inventory — as the full
`dataset@snapshot` string, dataset prefix included — whose bare name
(the portion after `@`) occurs in both inventories' bare-name sets;
equivalently, the resolver equals a reverse scan of the source
inventory for an entry whose bare name is in the target's bare-name
set. -/
theorem C1_resolver_returns_full_source_entry
    (src tgt : List String) :
    find_common_snapshot_core src tgt =
      src.reverse.find? (fun snap =>
        containsAt snap &&
        (bare_snap_names tgt).contains (splitAtSignField snap 1)) := by
  simp only [find_common_snapshot_core]
  by_cases h1 : (bare_snap_names src).isEmpty = true
  · rw [if_pos h1]
    symm
    rw [List.find?_eq_none]
    intro snap hmem hp
    simp only [Bool.and_eq_true] at hp
    have hin : splitAtSignField snap 1 ∈ bare_snap_names src :=
      mem_bare_snap_names (List.mem_reverse.mp hmem) hp.1
    rw [List.isEmpty_iff] at h1
    rw [h1] at hin
    exact List.not_mem_nil _ hin
  · rw [if_neg h1]
    by_cases h2 : ((bare_snap_names src).filter
        (fun n => (bare_snap_names tgt).contains n)).isEmpty = true
    · rw [if_pos h2]
      symm
      rw [List.find?_eq_none]
      intro snap hmem hp
      simp only [Bool.and_eq_true] at hp
      have hsrc : splitAtSignField snap 1 ∈ bare_snap_names src :=
        mem_bare_snap_names (List.mem_reverse.mp hmem) hp.1
      have hin : splitAtSignField snap 1 ∈ (bare_snap_names src).filter
          (fun n => (bare_snap_names tgt).contains n) :=
        List.mem_filter.mpr ⟨hsrc, hp.2⟩
      rw [List.isEmpty_iff] at h2
      rw [h2] at hin
      exact List.not_mem_nil _ hin
    · rw [if_neg h2]
      apply find?_congr_of_mem
      intro snap hmem
      cases hc : containsAt snap with
      | false => simp [hc]
      | true =>
        have hsrc : splitAtSignField snap 1 ∈ bare_snap_names src :=
          mem_bare_snap_names (List.mem_reverse.mp hmem) hc
        simp only [hc, Bool.true_and]
        cases hct : (bare_snap_names tgt).contains (splitAtSignField snap 1) with
        | true =>
          exact List.elem_iff.mpr
            (List.mem_filter.mpr ⟨hsrc, hct⟩)
        | false =>
          cases hcc : ((bare_snap_names src).filter
              (fun n => (bare_snap_names tgt).contains n)).contains
              (splitAtSignField snap 1) with
          | false => rfl
          | true =>
            have := (List.mem_filter.mp (List.elem_iff.mp hcc)).2
            rw [hct] at this
            exact absurd this (by simp)

/-! ## Claim C2 : single terminal transition and total result -/

/-- Terminal updates are updates. -/
theorem terminal_update_is_update (nid : Nat) (e : Event)
    (h : isTerminalUpdateFor nid e = true) : isUpdateEvent e = true := by
  cases e <;> simp_all [isTerminalUpdateFor, isUpdateEvent]

/-- C2: every `execute_replication` call returns (instead of raising) a
result whose status is exactly `success` or `failure` and which carries
the execution id created at the start of the call; among the events of
the call (everything appended to the pre-call trace) there is exactly
one `update_execution_record` call, it is a terminal update of that
execution id, and the stored record ends with exactly the returned
status. -/
theorem C2_single_terminal_transition (env : Env) (st : St)
    (source target : String) (rt : ReplicationType) (incr rec : Bool)
    (comp : CompressionMethod) (jid jname : Option String)
    (force : Option Bool) (opts : Options)
    (hfresh : ∀ r ∈ st.records, r.id ≠ st.next_id) :
    ((execute_replication env st source target rt incr rec comp jid jname
        force opts).1.status = "success" ∨
     (execute_replication env st source target rt incr rec comp jid jname
        force opts).1.status = "failure") ∧
    (execute_replication env st source target rt incr rec comp jid jname
        force opts).1.execution_id = st.next_id ∧
    (((execute_replication env st source target rt incr rec comp jid jname
        force opts).2.events.drop st.events.length).countP isUpdateEvent) = 1 ∧
    (((execute_replication env st source target rt incr rec comp jid jname
        force opts).2.events.drop st.events.length).countP
        (isTerminalUpdateFor st.next_id)) = 1 ∧
    (∃ r, (execute_replication env st source target rt incr rec comp jid
        jname force opts).2.records.find?
        (fun (x : ExecutionRecord) => x.id == st.next_id) = some r ∧
      r.status = (execute_replication env st source target rt incr rec comp
        jid jname force opts).1.status) := by
  rcases hatt : replication_attempt env source target rt incr rec comp
    force opts with ⟨trace, res⟩
  have hnoupd : ∀ e ∈ trace, isUpdateEvent e = false := by
    have h := attempt_trace_no_updates env source target rt incr rec comp
      force opts
    rw [hatt] at h
    exact h
  have htrace0 : trace.countP isUpdateEvent = 0 :=
    List.countP_eq_zero.mpr (by intro e he; simp [hnoupd e he])
  have htrace0t : trace.countP (isTerminalUpdateFor st.next_id) = 0 :=
    List.countP_eq_zero.mpr (by
      intro e he hT
      have := terminal_update_is_update st.next_id e hT
      rw [hnoupd e he] at this
      exact absurd this (by simp))
  cases res with
  | ok val =>
    obtain ⟨latest, r⟩ := val
    refine ⟨Or.inl ?_, ?_, ?_, ?_, ?_⟩
    · simp only [execute_replication, St.create_execution_record, hatt]
    · simp only [execute_replication, St.create_execution_record, hatt]
    · simp only [execute_replication, St.create_execution_record, hatt,
        St.update_execution_record, St.log_notification]
      split
      all_goals
        simp only [List.append_assoc]
        rw [List.drop_left]
        simp [List.countP_append, List.countP_cons, htrace0, isUpdateEvent]
    · simp only [execute_replication, St.create_execution_record, hatt,
        St.update_execution_record, St.log_notification]
      split
      all_goals
        simp only [List.append_assoc]
        rw [List.drop_left]
        simp [List.countP_append, List.countP_cons, htrace0t,
          isTerminalUpdateFor, isUpdateEvent]
    · simp only [execute_replication, St.create_execution_record, hatt,
        St.update_execution_record, St.log_notification]
      split
      all_goals
        exact ⟨_, find_updated_records st.records st.next_id jid _ source
          target rt.value "success" _ _ hfresh, rfl⟩
  | error e0 =>
    refine ⟨Or.inr ?_, ?_, ?_, ?_, ?_⟩
    · simp only [execute_replication, St.create_execution_record, hatt]
    · simp only [execute_replication, St.create_execution_record, hatt]
    · simp only [execute_replication, St.create_execution_record, hatt,
        St.update_execution_record, St.log_notification]
      split
      all_goals
        try split
      all_goals
        simp only [List.append_assoc]
        rw [List.drop_left]
        simp [List.countP_append, List.countP_cons, htrace0, isUpdateEvent]
    · simp only [execute_replication, St.create_execution_record, hatt,
        St.update_execution_record, St.log_notification]
      split
      all_goals
        try split
      all_goals
        simp only [List.append_assoc]
        rw [List.drop_left]
        simp [List.countP_append, List.countP_cons, htrace0t,
          isTerminalUpdateFor, isUpdateEvent]
    · simp only [execute_replication, St.create_execution_record, hatt,
        St.update_execution_record, St.log_notification]
      split
      all_goals
        try split
      all_goals
        exact ⟨_, find_updated_records st.records st.next_id jid _ source
          target rt.value "failure" _ _ hfresh, rfl⟩

/-- C2 witness: a successful concrete run and a failing concrete run
both finalize their record exactly once with the returned status. -/
theorem C2_single_terminal_transition_witness :
    ((execute_replication okEnv emptySt "tank/a@s1" "tank/b"
        ReplicationType.LOCAL false false CompressionMethod.LZ4 none none
        (some false) {}).1.status = "success" ∨
     (execute_replication okEnv emptySt "tank/a@s1" "tank/b"
        ReplicationType.LOCAL false false CompressionMethod.LZ4 none none
        (some false) {}).1.status = "failure") ∧
    (((execute_replication okEnv emptySt "tank/a@s1" "tank/b"
        ReplicationType.LOCAL false false CompressionMethod.LZ4 none none
        (some false) {}).2.events.drop 0).countP isUpdateEvent) = 1 := by
  have h := C2_single_terminal_transition okEnv emptySt "tank/a@s1" "tank/b"
    ReplicationType.LOCAL false false CompressionMethod.LZ4 none none
    (some false) {} (by simp [emptySt])
  exact ⟨h.1, h.2.2.1⟩

/-! ## Claim C3 : receiver exit code determines the outcome -/

/-- C3: in local pipe execution with an explicit force flag and a
snapshot source, if the receiver process exits non-zero the attempt
fails with `Receive failed: <receiver stderr>`, the returned result is
a failure carrying that message, and the execution record reaches
terminal status `failure` with the message as both error and log; if
the receiver exits zero the attempt is reported as success — the
sender's exit code (free in `env.pipe`) is never consulted. -/
theorem C3_receiver_exit_determines_outcome (env : Env) (st : St)
    (source target : String) (b rec : Bool) (comp : CompressionMethod)
    (jid jname : Option String) (opts : Options)
    (hsrc : containsAt source = true)
    (hfresh : ∀ r ∈ st.records, r.id ≠ st.next_id) :
    ((env.pipe
        (build_zfs_command env.is_linux
          (build_send_command source source false rec comp none))
        (build_zfs_command env.is_linux
          (build_receive_command target ReplicationType.LOCAL
            { opts with force := some b }))).recv_returncode ≠ 0 →
      (execute_replication env st source target ReplicationType.LOCAL false
        rec comp jid jname (some b) opts).1.status = "failure" ∧
      (execute_replication env st source target ReplicationType.LOCAL false
        rec comp jid jname (some b) opts).1.error =
        some ("Receive failed: " ++
          (env.pipe
            (build_zfs_command env.is_linux
              (build_send_command source source false rec comp none))
            (build_zfs_command env.is_linux
              (build_receive_command target ReplicationType.LOCAL
                { opts with force := some b }))).recv_stderr) ∧
      (execute_replication env st source target ReplicationType.LOCAL false
        rec comp jid jname (some b) opts).2.records.find?
          (fun (r : ExecutionRecord) => r.id == st.next_id) =
        some { id := st.next_id, job_id := jid,
               job_name := jname.getD (source ++ " → " ++ target),
               source_dataset := source, target_dataset := target,
               replication_type := "local", status := "failure",
               error_message := some ("Receive failed: " ++
                 (env.pipe
                   (build_zfs_command env.is_linux
                     (build_send_command source source false rec comp none))
                   (build_zfs_command env.is_linux
                     (build_receive_command target ReplicationType.LOCAL
                       { opts with force := some b }))).recv_stderr),
               log_output := "Receive failed: " ++
                 (env.pipe
                   (build_zfs_command env.is_linux
                     (build_send_command source source false rec comp none))
                   (build_zfs_command env.is_linux
                     (build_receive_command target ReplicationType.LOCAL
                       { opts with force := some b }))).recv_stderr }) ∧
    ((env.pipe
        (build_zfs_command env.is_linux
          (build_send_command source source false rec comp none))
        (build_zfs_command env.is_linux
          (build_receive_command target ReplicationType.LOCAL
            { opts with force := some b }))).recv_returncode = 0 →
      (execute_replication env st source target ReplicationType.LOCAL false
        rec comp jid jname (some b) opts).1.status = "success") := by
  have hred := replication_attempt_reduce env source target
    ReplicationType.LOCAL false rec comp (some b) opts source b none
    (by rw [hsrc]; rfl) rfl rfl
  rw [run_executor_local] at hred
  simp only [Bool.false_and] at hred
  constructor
  · intro hne
    have h2 := local_executor_error env
      (build_send_command source source false rec comp none)
      (build_receive_command target ReplicationType.LOCAL
        { opts with force := some b }) hne
    rw [h2] at hred
    simp only [Except.map] at hred
    refine ⟨?_, ?_, ?_⟩
    · simp only [execute_replication, St.create_execution_record, hred]
    · simp only [execute_replication, St.create_execution_record, hred]
      rfl
    · simp only [execute_replication, St.create_execution_record, hred,
        St.update_execution_record, St.log_notification]
      split
      · exact find_updated_records st.records st.next_id jid _ source target
          "local" "failure" _ _ hfresh
      · split
        · exact find_updated_records st.records st.next_id jid _ source target
            "local" "failure" _ _ hfresh
        · exact find_updated_records st.records st.next_id jid _ source target
            "local" "failure" _ _ hfresh
  · intro hzero
    have h2 := local_executor_ok env
      (build_send_command source source false rec comp none)
      (build_receive_command target ReplicationType.LOCAL
        { opts with force := some b }) hzero
    rw [h2] at hred
    simp only [Except.map] at hred
    simp only [execute_replication, St.create_execution_record, hred]

/-- C3 witness: with a receiver exiting 1 and stderr
"dataset already exists, use -F" the attempt fails with that message
and the record is terminal `failure`; with a receiver exiting 0 the
attempt succeeds. -/
theorem C3_receiver_exit_witness :
    (execute_replication recvFailEnv emptySt "tank/a@s1" "tank/b"
      ReplicationType.LOCAL false false CompressionMethod.LZ4 none none
      (some false) {}).1.status = "failure" ∧
    (execute_replication recvFailEnv emptySt "tank/a@s1" "tank/b"
      ReplicationType.LOCAL false false CompressionMethod.LZ4 none none
      (some false) {}).1.error =
      some "Receive failed: dataset already exists, use -F" ∧
    (execute_replication okEnv emptySt "tank/a@s1" "tank/b"
      ReplicationType.LOCAL false false CompressionMethod.LZ4 none none
      (some false) {}).1.status = "success" := by
  refine ⟨?_, ?_, ?_⟩
  · exact (C3_receiver_exit_determines_outcome recvFailEnv emptySt "tank/a@s1"
      "tank/b" false false CompressionMethod.LZ4 none none {} (by decide)
      (by simp [emptySt])).1 (by decide) |>.1
  · exact (C3_receiver_exit_determines_outcome recvFailEnv emptySt "tank/a@s1"
      "tank/b" false false CompressionMethod.LZ4 none none {} (by decide)
      (by simp [emptySt])).1 (by decide) |>.2.1
  · exact (C3_receiver_exit_determines_outcome okEnv emptySt "tank/a@s1"
      "tank/b" false false CompressionMethod.LZ4 none none {} (by decide)
      (by simp [emptySt])).2 (by decide)

/-! ## Claim C4 : half-close of the sender's stdout pipe -/

/-- C4: in both local and remote pipe execution the orchestrator closes
its handle to the sender's stdout pipe write end after spawning the
receiving process (receiver resp. ssh client) and before waiting on
it; the full effect traces are stated explicitly. -/
theorem C4_half_close_discipline (env : Env) (send_cmd receive_cmd : List String)
    (options : Options) (host : String)
    (hhost : options.remote_host = some host) (hne : host ≠ "") :
    (execute_local_replication env send_cmd receive_cmd).1 =
      [Event.spawnSender (build_zfs_command env.is_linux send_cmd),
       Event.spawnReceiver (build_zfs_command env.is_linux receive_cmd),
       Event.closeSenderStdout,
       Event.waitReceiver] ∧
    half_close_before_wait (execute_local_replication env send_cmd receive_cmd).1 ∧
    (execute_remote_replication env send_cmd receive_cmd options).1 =
      [Event.spawnSender (build_zfs_command env.is_linux send_cmd),
       Event.spawnReceiver
         (["ssh", "-p", toString (options.remote_port.getD 22)] ++
          (match options.ssh_key with
           | some k => if k = "" then [] else ["-i", k]
           | none => []) ++
          [host] ++ receive_cmd),
       Event.closeSenderStdout,
       Event.waitReceiver] ∧
    half_close_before_wait (execute_remote_replication env send_cmd receive_cmd options).1 := by
  have hlocal := local_replication_trace_eq env send_cmd receive_cmd
  have hremote := remote_replication_trace_eq env send_cmd receive_cmd options
    host hhost hne
  refine ⟨hlocal, ?_, hremote, ?_⟩
  · rw [hlocal]
    exact ⟨1, 2, 3, by omega, by omega,
      ⟨build_zfs_command env.is_linux receive_cmd, rfl⟩, rfl, rfl⟩
  · rw [hremote]
    refine ⟨1, 2, 3, by omega, by omega, ⟨_, rfl⟩, rfl, rfl⟩

/-- C4 witness: concrete local and remote runs exhibit the half-close
ordering. -/
theorem C4_half_close_discipline_witness :
    half_close_before_wait
      (execute_local_replication okEnv ["zfs", "send", "d@s1"]
        ["zfs", "receive", "t"]).1 ∧
    half_close_before_wait
      (execute_remote_replication okEnv ["zfs", "send", "d@s1"]
        ["zfs", "receive", "t"] { remote_host := some "h" }).1 :=
  ⟨(C4_half_close_discipline okEnv ["zfs", "send", "d@s1"]
      ["zfs", "receive", "t"] { remote_host := some "h" } "h" rfl
      (by decide)).2.1,
   (C4_half_close_discipline okEnv ["zfs", "send", "d@s1"]
      ["zfs", "receive", "t"] { remote_host := some "h" } "h" rfl
      (by decide)).2.2.2⟩

/-! ## Claim C9 : ssh configuration of the remote transfer -/

/-- C9 counterexample: a concrete remote replication execution whose
ssh invocation (the spawned process carrying the receiver argv) is
`ssh -p 22 backup.example.com zfs receive tank/dst` — it contains none
of `BatchMode=yes`, `StrictHostKeyChecking=no`,
`UserKnownHostsFile=/dev/null` or any `-o`/`ConnectTimeout` option the
claim requires. -/
theorem C9_counterexample :
    (execute_remote_replication okEnv ["zfs", "send", "tank/src@s3"]
        ["zfs", "receive", "tank/dst"]
        { remote_host := some "backup.example.com" }).1.get? 1 =
      some (Event.spawnReceiver
        ["ssh", "-p", "22", "backup.example.com", "zfs", "receive", "tank/dst"]) ∧
    "BatchMode=yes" ∉
      ["ssh", "-p", "22", "backup.example.com", "zfs", "receive", "tank/dst"] ∧
    "StrictHostKeyChecking=no" ∉
      ["ssh", "-p", "22", "backup.example.com", "zfs", "receive", "tank/dst"] ∧
    "UserKnownHostsFile=/dev/null" ∉
      ["ssh", "-p", "22", "backup.example.com", "zfs", "receive", "tank/dst"] ∧
    "-o" ∉
      ["ssh", "-p", "22", "backup.example.com", "zfs", "receive", "tank/dst"] := by
  decide

/-- C9 (amended): only the remote snapshot-listing probe configures the
secure shell with `BatchMode=yes`, `StrictHostKeyChecking=no`,
`UserKnownHostsFile=/dev/null` and `ConnectTimeout`; the transfer
invocation that carries the receiver argv is a bare
`ssh -p <port> [-i <key>] <host> <receiver argv...>` with system
defaults. -/
theorem C9_ssh_options (env : Env) (send_cmd receive_cmd : List String)
    (options : Options) (host : String) (port : Nat) (ssh_key : Option String)
    (dataset : String)
    (hhost : options.remote_host = some host) (hne : host ≠ "") :
    (execute_remote_replication env send_cmd receive_cmd options).1.get? 1 =
      some (Event.spawnReceiver
        (["ssh", "-p", toString (options.remote_port.getD 22)] ++
         (match options.ssh_key with
          | some k => if k = "" then [] else ["-i", k]
          | none => []) ++
         [host] ++ receive_cmd)) ∧
    "BatchMode=yes" ∈ remote_snapshot_list_cmd host port ssh_key dataset ∧
    "StrictHostKeyChecking=no" ∈ remote_snapshot_list_cmd host port ssh_key dataset ∧
    "UserKnownHostsFile=/dev/null" ∈ remote_snapshot_list_cmd host port ssh_key dataset ∧
    "ConnectTimeout=10" ∈ remote_snapshot_list_cmd host port ssh_key dataset := by
  refine ⟨?_, ?_, ?_, ?_, ?_⟩
  · have := remote_replication_trace_eq env send_cmd receive_cmd options host
      hhost hne
    rw [this]
    rfl
  all_goals
    simp [remote_snapshot_list_cmd]

/-- C9 witness: concrete instantiation of the amended statement. -/
theorem C9_ssh_options_witness :
    (execute_remote_replication okEnv ["zfs", "send", "d@s1"]
        ["zfs", "receive", "t"] { remote_host := some "h" }).1.get? 1 =
      some (Event.spawnReceiver ["ssh", "-p", "22", "h", "zfs", "receive", "t"]) ∧
    "BatchMode=yes" ∈ remote_snapshot_list_cmd "h" 22 none "t" := by
  have h := C9_ssh_options okEnv ["zfs", "send", "d@s1"]
    ["zfs", "receive", "t"] { remote_host := some "h" } "h" 22 none "t" rfl
    (by decide)
  exact ⟨h.1, h.2.1⟩

/-! ## Claim C8 : name validation grammar -/

theorem datasetDFA_spec (cs : List Char) :
    (datasetDFA cs true = (splitChars '/' cs).all matchSnapCore) ∧
    (datasetDFA cs false =
      (((splitChars '/' cs).headD []).all isNameChar &&
       ((splitChars '/' cs).tail).all matchSnapCore)) := by
  induction cs with
  | nil => exact ⟨rfl, rfl⟩
  | cons c rest ih =>
    obtain ⟨ih1, ih2⟩ := ih
    have halnum : isAlnumChar '/' = false := by decide
    constructor
    · by_cases hc : c = '/'
      · subst hc
        simp [datasetDFA, splitChars, matchSnapCore, halnum]
      · simp [datasetDFA, splitChars, hc, matchSnapCore, ih2,
          Bool.and_assoc]
    · by_cases hc : c = '/'
      · subst hc
        simp [datasetDFA, splitChars, ih1]
      · simp [datasetDFA, splitChars, hc, ih2, Bool.and_assoc]

theorem datasetDFA_no_at (cs : List Char) :
    ∀ b : Bool, datasetDFA cs b = true → '@' ∉ cs := by
  induction cs with
  | nil => intro b _ h; exact absurd h (List.not_mem_nil _)
  | cons c rest ih =>
    intro b hdfa hmem
    rcases List.mem_cons.mp hmem with rfl | hmem2
    · cases b with
      | true =>
        simp only [datasetDFA, Bool.and_eq_true] at hdfa
        exact absurd hdfa.1 (by decide)
      | false =>
        simp only [datasetDFA] at hdfa
        rw [if_neg (by decide)] at hdfa
        simp only [Bool.and_eq_true] at hdfa
        exact absurd hdfa.1 (by decide)
    · cases b with
      | true =>
        simp only [datasetDFA, Bool.and_eq_true] at hdfa
        exact ih false hdfa.2 hmem2
      | false =>
        simp only [datasetDFA] at hdfa
        by_cases hc : c = '/'
        · rw [if_pos hc] at hdfa
          exact ih true hdfa hmem2
        · rw [if_neg hc] at hdfa
          simp only [Bool.and_eq_true] at hdfa
          exact ih false hdfa.2 hmem2

theorem matchSnapCore_no_at (cs : List Char)
    (h : matchSnapCore cs = true) : '@' ∉ cs := by
  cases cs with
  | nil => exact List.not_mem_nil _
  | cons c rest =>
    simp only [matchSnapCore, Bool.and_eq_true, List.all_eq_true] at h
    intro hmem
    rcases List.mem_cons.mp hmem with rfl | hmem2
    · exact absurd h.1 (by decide)
    · have := h.2 _ hmem2
      exact absurd this (by decide)

/-- Splitting a Python-`$` acceptance into its two cases: either the
whole input matches the core, or the input ends in a newline and the
rest matches the core. -/
theorem dollar_cases (core : List Char → Bool) (cs : List Char)
    (h : (core cs ||
      (match cs.getLast? with
       | some c => c == '\n' && core cs.dropLast
       | none => false)) = true) :
    core cs = true ∨
      (cs.getLast? = some '\n' ∧ core cs.dropLast = true) := by
  rw [Bool.or_eq_true] at h
  rcases h with h | h
  · exact Or.inl h
  · right
    cases hlast : cs.getLast? with
    | none =>
      rw [hlast] at h
      exact absurd h (by simp)
    | some c =>
      rw [hlast] at h
      rw [Bool.and_eq_true, beq_iff_eq] at h
      obtain ⟨hc, hcore⟩ := h
      subst hc
      exact ⟨rfl, hcore⟩

/-- A last element is not in the list beyond `dropLast` and itself. -/
theorem mem_of_getLast?_newline {cs : List Char} {x : Char}
    (hlast : cs.getLast? = some '\n') (hx : x ∈ cs) (hne : x ≠ '\n') :
    x ∈ cs.dropLast := by
  have hnil : cs ≠ [] := by
    intro he
    rw [he] at hlast
    exact absurd hlast (by simp)
  have hsplit := List.dropLast_append_getLast hnil
  rw [← hsplit] at hx
  rcases List.mem_append.mp hx with h1 | h2
  · exact h1
  · exfalso
    have h3 : x = cs.getLast hnil := by simpa using h2
    have h4 : cs.getLast? = some (cs.getLast hnil) :=
      List.getLast?_eq_getLast cs hnil
    rw [hlast] at h4
    have h5 : cs.getLast hnil = '\n' := by
      injection h4 with h6
      exact h6.symm
    rw [h5] at h3
    exact hne h3

theorem matchDatasetChars_no_at (cs : List Char)
    (h : matchDatasetChars cs = true) : '@' ∉ cs := by
  unfold matchDatasetChars at h
  rcases dollar_cases (fun l => datasetDFA l true) cs h with h | ⟨hlast, hcore⟩
  · exact datasetDFA_no_at cs true h
  · intro hmem
    exact datasetDFA_no_at cs.dropLast true hcore
      (mem_of_getLast?_newline hlast hmem (by decide))

theorem matchSnapChars_no_at (cs : List Char)
    (h : matchSnapChars cs = true) : '@' ∉ cs := by
  unfold matchSnapChars at h
  rcases dollar_cases matchSnapCore cs h with h | ⟨hlast, hcore⟩
  · exact matchSnapCore_no_at cs h
  · intro hmem
    exact matchSnapCore_no_at cs.dropLast hcore
      (mem_of_getLast?_newline hlast hmem (by decide))

theorem rsplitAtSign_spec (cs : List Char) :
    ∀ b a : List Char, rsplitAtSign cs = some (b, a) →
      cs = b ++ '@' :: a := by
  induction cs with
  | nil => intro b a h; exact absurd h (by simp [rsplitAtSign])
  | cons c rest ih =>
    intro b a h
    simp only [rsplitAtSign] at h
    cases hr : rsplitAtSign rest with
    | some p =>
      obtain ⟨b0, a0⟩ := p
      rw [hr] at h
      simp only [Option.some.injEq, Prod.mk.injEq] at h
      obtain ⟨hb, ha⟩ := h
      rw [← hb, ← ha, ih b0 a0 hr]
      rfl
    | none =>
      rw [hr] at h
      by_cases hc : c = '@'
      · rw [if_pos hc] at h
        simp only [Option.some.injEq, Prod.mk.injEq] at h
        rw [← h.1, ← h.2, hc]
        rfl
      · rw [if_neg hc] at h
        exact absurd h (by simp)

/-- The characterization of `ZFS_DATASET_NAME_PATTERN.match` with
Python's `$` semantics: the whole input's `/`-components all match the
component core, or the input ends in a newline and the rest's
components all match. -/
theorem matchDatasetChars_iff (cs : List Char) :
    matchDatasetChars cs = true ↔
      ((splitChars '/' cs).all matchSnapCore = true ∨
       (cs.getLast? = some '\n' ∧
        (splitChars '/' cs.dropLast).all matchSnapCore = true)) := by
  unfold matchDatasetChars
  rw [Bool.or_eq_true, (datasetDFA_spec cs).1, (datasetDFA_spec cs.dropLast).1]
  cases hlast : cs.getLast? with
  | none => simp
  | some c => simp [Bool.and_eq_true]

/-- The dataset validator accepts exactly the strings whose
`/`-separated components each match the single-component regex
`^[a-zA-Z0-9][a-zA-Z0-9_\-.:]*` to the end — where, through Python's
`$`, one newline at the very end of the whole string is tolerated
(it is not part of any component). -/
theorem validate_dataset_name_iff (s : String) :
    validate_dataset_name s = .ok () ↔
      ((splitChars '/' s.toList).all matchSnapCore = true ∨
       (s.toList.getLast? = some '\n' ∧
        (splitChars '/' s.toList.dropLast).all matchSnapCore = true)) := by
  unfold validate_dataset_name
  by_cases hs : s = ""
  · subst hs
    constructor
    · intro h
      exact absurd h (by simp)
    · intro h
      rcases h with h | ⟨h1, _⟩
      · exact absurd h (by decide)
      · exact absurd h1 (by decide)
  · rw [if_neg hs, ← matchDatasetChars_iff]
    cases hm : matchDatasetChars s.toList with
    | false =>
      rw [if_pos (by decide)]
      simp
    | true =>
      rw [if_neg (by decide)]
      simp

/-- A validated full snapshot name holds exactly one `@`. -/
theorem validate_full_at_count (s : String)
    (h : validate_full_snapshot_name s = .ok ()) :
    s.toList.count '@' = 1 := by
  unfold validate_full_snapshot_name at h
  cases hr : rsplitAtSign s.toList with
  | none =>
    rw [hr] at h
    exact absurd h (by simp)
  | some p =>
    obtain ⟨bs, as⟩ := p
    rw [hr] at h
    dsimp only at h
    cases hd : validate_dataset_name (String.mk bs) with
    | error e =>
      rw [hd] at h
      exact absurd h (by simp [Bind.bind, Except.bind])
    | ok u =>
      cases hsn : validate_snapshot_name (String.mk as) with
      | error e =>
        rw [hd, hsn] at h
        exact absurd h (by simp [Bind.bind, Except.bind])
      | ok v =>
        have hb : matchDatasetChars bs = true := by
          cases hmm : matchDatasetChars bs with
          | true => rfl
          | false =>
            exfalso
            unfold validate_dataset_name at hd
            by_cases hbe : String.mk bs = ""
            · rw [if_pos hbe] at hd
              exact absurd hd (by simp)
            · rw [if_neg hbe] at hd
              have h3 : (!matchDatasetChars (String.mk bs).toList) = true := by
                have h4 : matchDatasetChars (String.mk bs).toList = false := hmm
                rw [h4]
                rfl
              rw [if_pos h3] at hd
              exact absurd hd (by simp)
        have ha : matchSnapChars as = true := by
          cases hmm : matchSnapChars as with
          | true => rfl
          | false =>
            exfalso
            unfold validate_snapshot_name at hsn
            by_cases hae : String.mk as = ""
            · rw [if_pos hae] at hsn
              exact absurd hsn (by simp)
            · rw [if_neg hae] at hsn
              have h3 : (!matchSnapChars (String.mk as).toList) = true := by
                have h4 : matchSnapChars (String.mk as).toList = false := hmm
                rw [h4]
                rfl
              rw [if_pos h3] at hsn
              exact absurd hsn (by simp)
        have hnb : '@' ∉ bs := matchDatasetChars_no_at bs hb
        have hna : '@' ∉ as := matchSnapChars_no_at as ha
        rw [rsplitAtSign_spec s.toList bs as hr]
        simp [List.count_append, List.count_cons,
          List.count_eq_zero.mpr hnb, List.count_eq_zero.mpr hna]

/-- C8 counterexample: the claimed iff — "dataset validation succeeds
iff every `/`-separated component matches
`^[A-Za-z0-9][A-Za-z0-9_.:-]*$`" — is false of the program under
either reading of its `$`.  Strict reading: `"tank\n"` validates (via
Python's trailing-newline-tolerant `$`) although its single component
`tank\n` does not strictly match.  Python reading (per-component
newline tolerance): every component of `"a\n/b"` matches tolerantly,
yet the validator rejects it (the newline is mid-string, where the
real pattern cannot accept it). -/
theorem C8_counterexample :
    validate_dataset_name "tank\n" = .ok () ∧
    (splitChars '/' "tank\n".toList).all matchSnapCore = false ∧
    validate_dataset_name "a\n/b" ≠ .ok () ∧
    (splitChars '/' "a\n/b".toList).all matchSnapChars = true := by
  decide

/-- C8 (amended): dataset validation succeeds iff every `/`-separated
component matches `^[A-Za-z0-9][A-Za-z0-9_.:-]*` to the end, where
Python's `$` additionally tolerates a single newline at the very end
of the whole string; the empty string fails every validator; `a/b@c`
validates with dataset half `a/b` and snapshot half `c` (split on the
last `@`); any validated full snapshot name holds exactly one `@`; and
an identifier whose pre-`@` half is not a valid dataset (`a@b@c`,
whose half is `a@b`) fails. -/
theorem C8_validator_grammar :
    (∀ s : String, validate_dataset_name s = .ok () ↔
       ((splitChars '/' s.toList).all matchSnapCore = true ∨
        (s.toList.getLast? = some '\n' ∧
         (splitChars '/' s.toList.dropLast).all matchSnapCore = true))) ∧
    validate_dataset_name "" ≠ .ok () ∧
    validate_snapshot_name "" ≠ .ok () ∧
    validate_full_snapshot_name "" ≠ .ok () ∧
    validate_full_snapshot_name "a/b@c" = .ok () ∧
    fullSnapshotParts "a/b@c" = some ("a/b", "c") ∧
    (∀ s : String, validate_full_snapshot_name s = .ok () →
       s.toList.count '@' = 1) ∧
    validate_full_snapshot_name "a@b@c" ≠ .ok () :=
  ⟨validate_dataset_name_iff, by decide, by decide, by decide, by decide,
   by decide, validate_full_at_count, by decide⟩

/-- C8 witness: the amended component characterization instantiated at
the newline-carrying `"tank\n"`, and the exactly-one-`@` consequence
at `"a@b\n"`, which the source validator accepts through the same `$`
tolerance. -/
theorem C8_validator_grammar_witness :
    (validate_dataset_name "tank\n" = .ok () ↔
      ((splitChars '/' "tank\n".toList).all matchSnapCore = true ∨
       ("tank\n".toList.getLast? = some '\n' ∧
        (splitChars '/' "tank\n".toList.dropLast).all matchSnapCore = true))) ∧
    "a@b\n".toList.count '@' = 1 :=
  ⟨C8_validator_grammar.1 "tank\n",
   C8_validator_grammar.2.2.2.2.2.2.1 "a@b\n" (by decide)⟩

/-! ## Claim C5 : empty intersection means full-send fallback -/

/-- C5: when the bare-name sets of the two inventories do not intersect
(in particular when the target inventory is empty), base resolution
returns `none` without raising, and the `execute_replication` call
falls back to a full send: the sender argv it spawns is built without
any incremental base, contains no `-i` flag, and ends with (names) the
latest source snapshot. -/
theorem C5_no_common_fallback (env : Env) (st : St) (source target : String)
    (rec : Bool) (comp : CompressionMethod) (jid jname : Option String)
    (opts : Options) (f : Bool) (src_inv tgt_inv : List String)
    (hsrc : containsAt source = false)
    (hsnaps : get_snapshots env source = .ok src_inv)
    (htgt : get_snapshots env target = .ok tgt_inv)
    (hinvne : src_inv ≠ [])
    (hlne : src_inv.getLastD "" ≠ "-i")
    (hint : ∀ n ∈ bare_snap_names src_inv, n ∉ bare_snap_names tgt_inv) :
    find_common_snapshot env source target ReplicationType.LOCAL
      { opts with force := some f } = .ok none ∧
    "-i" ∉ build_send_command source (src_inv.getLastD "") false rec comp none ∧
    (build_send_command source (src_inv.getLastD "") false rec comp
      none).getLast? = some (src_inv.getLastD "") ∧
    Event.spawnSender (build_zfs_command env.is_linux
        (build_send_command source (src_inv.getLastD "") false rec comp none)) ∈
      (execute_replication env st source target ReplicationType.LOCAL true
        rec comp jid jname (some f) opts).2.events := by
  have hcommon : find_common_snapshot env source target ReplicationType.LOCAL
      { opts with force := some f } = .ok none := by
    rw [find_common_snapshot_local_eq env source target
      { opts with force := some f } src_inv tgt_inv hsrc hsnaps htgt]
    rw [find_common_core_none_of_empty_inter src_inv tgt_inv hint]
  have hlne2 : src_inv.getLast?.getD "" ≠ "-i" := by
    simpa [List.getLastD_eq_getLast?] using hlne
  refine ⟨hcommon, ?_, ?_, ?_⟩
  · cases rec <;> cases hcmp : (comp != CompressionMethod.NONE) <;>
      simp [build_send_command, hcmp, Ne.symm hlne2]
  · cases rec <;> cases hcmp : (comp != CompressionMethod.NONE) <;>
      simp [build_send_command, hcmp, List.getLast?_concat]
  · have hlatest : ((if containsAt source then Except.ok source
        else match get_snapshots env source with
             | .error e => .error e
             | .ok snapshots =>
               if snapshots.isEmpty then
                 .error (PyException.exception
                   ("No snapshots found for " ++ source))
               else .ok (snapshots.getLastD "")) :
        Except PyException String) = .ok (src_inv.getLastD "") := by
      rw [hsrc]
      simp only [Bool.false_eq_true, if_false, hsnaps]
      rw [if_neg (by simp [List.isEmpty_iff, hinvne])]
    have hbase : ((if true then
          find_common_snapshot env source target ReplicationType.LOCAL
            { opts with force := some f }
        else .ok none) : Except PyException (Option String)) = .ok none := by
      rw [if_pos rfl]
      exact hcommon
    have hred := replication_attempt_reduce env source target
      ReplicationType.LOCAL true rec comp (some f) opts
      (src_inv.getLastD "") f none hlatest rfl hbase
    rw [run_executor_local] at hred
    simp only [Option.isSome_none, Bool.and_false] at hred
    apply attempt_trace_in_events
    have htr : (replication_attempt env source target ReplicationType.LOCAL
        true rec comp (some f) opts).1 =
        (execute_local_replication env
          (build_send_command source (src_inv.getLastD "") false rec comp none)
          (build_receive_command target ReplicationType.LOCAL
            { opts with force := some f })).1 := by
      rw [hred]
    rw [htr, local_replication_trace_eq]
    simp

/-- C5 witness: source inventory `[tank/a@s5]`, target inventory `[]`:
resolution yields no base and the spawned sender argv is the full send
`zfs send -c -w tank/a@s5`. -/
theorem C5_no_common_fallback_witness :
    find_common_snapshot c5Env "tank/a" "tank/b" ReplicationType.LOCAL
      { force := some false } = .ok none ∧
    "-i" ∉ build_send_command "tank/a" "tank/a@s5" false false
      CompressionMethod.LZ4 none ∧
    Event.spawnSender ["zfs", "send", "-c", "-w", "tank/a@s5"] ∈
      (execute_replication c5Env emptySt "tank/a" "tank/b"
        ReplicationType.LOCAL true false CompressionMethod.LZ4 none none
        (some false) {}).2.events := by
  have h := C5_no_common_fallback c5Env emptySt "tank/a" "tank/b" false
    CompressionMethod.LZ4 none none {} false ["tank/a@s5"] [] (by decide)
    (by decide) (by decide) (by decide) (by decide) (by decide)
  exact ⟨h.1, h.2.1, h.2.2.2⟩

/-! ## Claim C6 : force auto-detection on receive -/

/-- C6: the receive argv carries `-F` iff the effective force flag is
set; with `force=None` the effective flag is the target-existence
probe's result (shown by the receiver spawn the call performs); with an
explicit `force` value that value alone sets the flag and the probe
result is irrelevant (the statement holds for every environment). -/
theorem C6_force_auto_detection (env : Env) (st : St)
    (source target : String) (rec : Bool) (comp : CompressionMethod)
    (jid jname : Option String) (opts : Options) (ex b : Bool)
    (hsrc : containsAt source = true)
    (hck : check_target_exists env target = .ok ex) :
    (∀ (t : String) (rt : ReplicationType) (o : Options), t ≠ "-F" →
      ("-F" ∈ build_receive_command t rt o ↔ o.force.getD false = true)) ∧
    Event.spawnReceiver (build_zfs_command env.is_linux
        (build_receive_command target ReplicationType.LOCAL
          { opts with force := some ex })) ∈
      (execute_replication env st source target ReplicationType.LOCAL false
        rec comp jid jname none opts).2.events ∧
    Event.spawnReceiver (build_zfs_command env.is_linux
        (build_receive_command target ReplicationType.LOCAL
          { opts with force := some b })) ∈
      (execute_replication env st source target ReplicationType.LOCAL false
        rec comp jid jname (some b) opts).2.events := by
  refine ⟨?_, ?_, ?_⟩
  · intro t rt o ht
    unfold build_receive_command
    cases hf : o.force.getD false
    · simp [Ne.symm ht]
    · simp
  · have hred := replication_attempt_reduce env source target
      ReplicationType.LOCAL false rec comp none opts source ex none
      (by rw [hsrc]; rfl) (by exact hck) rfl
    rw [run_executor_local] at hred
    simp only [Bool.false_and] at hred
    apply attempt_trace_in_events
    have h1 : (replication_attempt env source target ReplicationType.LOCAL
        false rec comp none opts).1 =
        (execute_local_replication env
          (build_send_command source source false rec comp none)
          (build_receive_command target ReplicationType.LOCAL
            { opts with force := some ex })).1 := by
      rw [hred]
    rw [h1, local_replication_trace_eq]
    simp
  · have hred := replication_attempt_reduce env source target
      ReplicationType.LOCAL false rec comp (some b) opts source b none
      (by rw [hsrc]; rfl) rfl rfl
    rw [run_executor_local] at hred
    simp only [Bool.false_and] at hred
    apply attempt_trace_in_events
    have h1 : (replication_attempt env source target ReplicationType.LOCAL
        false rec comp (some b) opts).1 =
        (execute_local_replication env
          (build_send_command source source false rec comp none)
          (build_receive_command target ReplicationType.LOCAL
            { opts with force := some b })).1 := by
      rw [hred]
    rw [h1, local_replication_trace_eq]
    simp

/-- C6 witness: under an environment where the target exists, a
`force=None` call spawns `zfs receive -F tank/b`, while an explicit
`force=False` call spawns `zfs receive tank/b` without `-F`; and the
builder-level iff at a concrete option set. -/
theorem C6_force_auto_detection_witness :
    ("-F" ∈ build_receive_command "tank/b" ReplicationType.LOCAL
        { force := some false } ↔
      (({ force := some false } : Options)).force.getD false = true) ∧
    Event.spawnReceiver ["zfs", "receive", "-F", "tank/b"] ∈
      (execute_replication okEnv emptySt "tank/a@s1" "tank/b"
        ReplicationType.LOCAL false false CompressionMethod.LZ4 none none
        none {}).2.events ∧
    Event.spawnReceiver ["zfs", "receive", "tank/b"] ∈
      (execute_replication okEnv emptySt "tank/a@s1" "tank/b"
        ReplicationType.LOCAL false false CompressionMethod.LZ4 none none
        (some false) {}).2.events := by
  have h := C6_force_auto_detection okEnv emptySt "tank/a@s1" "tank/b" false
    CompressionMethod.LZ4 none none {} true false (by decide) (by decide)
  exact ⟨h.1 "tank/b" ReplicationType.LOCAL { force := some false }
    (by decide), h.2.1, h.2.2⟩

/-! ## Claim C7 : inventory error handling -/

/-- C7 counterexample: local snapshot listing does NOT raise on a real
error such as a nonexistent dataset — the underlying listing command
fails with `CalledProcessError` (shown explicitly), yet
`_get_snapshots` swallows it and returns the empty list. -/
theorem C7_counterexample :
    run_zfs_command failListEnv (snapshot_list_cmd "nosuch/data") true =
      .error (.calledProcessError
        "Command returned non-zero exit status 1."
        "cannot open nosuch/data: dataset does not exist") ∧
    get_snapshots failListEnv "nosuch/data" = .ok [] := by
  decide

/-- C7 (amended): BOTH listings swallow command failure: local
`_get_snapshots` returns `[]` (instead of raising) when the listing
command exits non-zero, exactly like the remote listing.  The residual
asymmetry is smaller than claimed: local propagates exceptions other
than `CalledProcessError`, while `_get_remote_snapshots` returns `[]`
on every failure — missing `remote_host`, any exception (timeout,
auth), or a non-zero remote exit. -/
theorem C7_inventory_error_handling :
    (∀ (env : Env) (ds : String) (p : CompletedProcess),
       env.run (build_zfs_command env.is_linux (snapshot_list_cmd ds)) = .ok p →
       p.returncode ≠ 0 →
       get_snapshots env ds = .ok []) ∧
    (∀ (env : Env) (ds msg : String),
       env.run (build_zfs_command env.is_linux (snapshot_list_cmd ds)) =
         .error (.otherError msg) →
       get_snapshots env ds = .error (.otherError msg)) ∧
    (∀ (env : Env) (ds : String) (opts : Options),
       opts.remote_host = none →
       get_remote_snapshots env ds opts = []) ∧
    (∀ (env : Env) (ds : String) (opts : Options),
       opts.remote_host = some "" →
       get_remote_snapshots env ds opts = []) ∧
    (∀ (env : Env) (ds : String) (opts : Options) (host : String)
       (e : PyException),
       opts.remote_host = some host → host ≠ "" →
       env.run (remote_snapshot_list_cmd host (opts.remote_port.getD 22)
         opts.ssh_key ds) = .error e →
       get_remote_snapshots env ds opts = []) ∧
    (∀ (env : Env) (ds : String) (opts : Options) (host : String)
       (p : CompletedProcess),
       opts.remote_host = some host → host ≠ "" →
       env.run (remote_snapshot_list_cmd host (opts.remote_port.getD 22)
         opts.ssh_key ds) = .ok p →
       p.returncode ≠ 0 →
       get_remote_snapshots env ds opts = []) := by
  refine ⟨?_, ?_, ?_, ?_, ?_, ?_⟩
  · intro env ds p hrun hrc
    simp [get_snapshots, run_zfs_command, hrun, bne_iff_ne, hrc]
  · intro env ds msg hrun
    simp [get_snapshots, run_zfs_command, hrun]
  · intro env ds opts h
    simp [get_remote_snapshots, h]
  · intro env ds opts h
    simp [get_remote_snapshots, h]
  · intro env ds opts host e hh hne hrun
    simp [get_remote_snapshots, hh, hne, hrun]
  · intro env ds opts host p hh hne hrun hrc
    simp [get_remote_snapshots, hh, hne, hrun, hrc]

/-- C7 witness: the amended behavior at a concrete failing environment
and a concrete option set. -/
theorem C7_inventory_error_handling_witness :
    get_snapshots failListEnv "nosuch/data" = .ok [] ∧
    get_remote_snapshots failListEnv "tank/d"
      { remote_host := some "h" } = [] := by
  constructor
  · exact C7_inventory_error_handling.1 failListEnv "nosuch/data"
      { returncode := 1, stdout := "",
        stderr := "cannot open nosuch/data: dataset does not exist" }
      (by decide) (by decide)
  · exact C7_inventory_error_handling.2.2.2.2.2 failListEnv "tank/d"
      { remote_host := some "h" } "h"
      { returncode := 1, stdout := "",
        stderr := "cannot open nosuch/data: dataset does not exist" }
      rfl (by decide) (by decide) (by decide)

/-! ## Claim C10 : registry operations on a missing job id -/

/-- C10: for a job id absent from the registry, `get_replication_job`,
`update_replication_job` (hence `enable_job`/`disable_job`) and
`delete_replication_job` all raise `KeyError` and leave the registry
unchanged. -/
theorem C10_missing_job_id (jobs : JobRegistry) (job_id : String)
    (upd : Job → Job) (now : Nat)
    (h : jobs.hasKey job_id = false) :
    get_replication_job jobs job_id =
      .error (.keyError ("Replication job " ++ job_id ++ " not found")) ∧
    update_replication_job jobs job_id upd now =
      (some (.keyError ("Replication job " ++ job_id ++ " not found")), jobs) ∧
    delete_replication_job jobs job_id =
      (some (.keyError ("Replication job " ++ job_id ++ " not found")), jobs) ∧
    enable_job jobs job_id now =
      (some (.keyError ("Replication job " ++ job_id ++ " not found")), jobs) ∧
    disable_job jobs job_id now =
      (some (.keyError ("Replication job " ++ job_id ++ " not found")), jobs) := by
  unfold get_replication_job update_replication_job delete_replication_job
    enable_job disable_job
  rw [h]
  simp [update_replication_job, h]

/-- C10 witness: the empty registry has no job `j1`, and all five
operations report `KeyError` there. -/
theorem C10_missing_job_id_witness :
    get_replication_job [] "j1" =
      .error (.keyError ("Replication job " ++ "j1" ++ " not found")) ∧
    update_replication_job [] "j1" id 0 =
      (some (.keyError ("Replication job " ++ "j1" ++ " not found")), []) ∧
    delete_replication_job [] "j1" =
      (some (.keyError ("Replication job " ++ "j1" ++ " not found")), []) ∧
    enable_job [] "j1" 0 =
      (some (.keyError ("Replication job " ++ "j1" ++ " not found")), []) ∧
    disable_job [] "j1" 0 =
      (some (.keyError ("Replication job " ++ "j1" ++ " not found")), []) := by
  have h : JobRegistry.hasKey [] "j1" = false := by decide
  simpa using C10_missing_job_id [] "j1" id 0 h

end WebZFS
